import Mathlib

/-!
Shallow embedding of the registration / deployment state machines and the
nonce coordinator of the `register-evm-agent` oracle canister
(`src/oracle_canister/src/evm_canister.rs`, `evm_canister/account.rs`,
`evm_canister/contract.rs`, `canister.rs`).

Persisted cells (`NONCE_CELL`, `ACCOUNT_DATA_CELL`, `CONTRACT_REGISTRATION_STATE`,
`CONTRACT_REGISTRATION_TX_HASH`) are gathered into an explicit `EvmState`
record that every operation threads.  Asynchronous remote calls are modelled
by oracle parameters: each remote outcome is an
`Option (Except EvmError T)` where `none` is a transport-level failure
(the `(RejectionCode, String)` error of `canister_call!`) and
`some r` is a transport success carrying the application-level `EvmResult<T>`.

`U256` values are modelled as `Nat` (all reachable values stay far below
`2 ^ 256`; `ethereum_types::U256` addition panics rather than wraps on
overflow, so no modular reduction arises on the increment path).
`H160` / `H256` are byte strings modelled as `List Nat`.
-/

deriving instance DecidableEq for Except

namespace RegisterEvmAgent

/-- Byte string standing for `did::H160` (20 bytes). -/
abbrev H160 := List Nat

/-- Byte string standing for `did::H256` (32 bytes). -/
abbrev H256 := List Nat

/-- The `H256::zero()` sentinel: 32 zero bytes. -/
def H256.zero : H256 := List.replicate 32 0

/-- The `H160::from_slice` conversion; on the 20-byte inputs produced by
`ContractStatus::to_bytes` it is the identity on the byte string. -/
def H160.from_slice (bytes : List Nat) : H160 := bytes

/-- The `ContractStatus` enum of `evm_canister/contract.rs`. -/
inductive ContractStatus where
  | Unregistered
  | RegistrationInProgress
  | Registered (addr : H160)
deriving DecidableEq

/-- The `AccountState` enum of `evm_canister/account.rs`. -/
inductive AccountState where
  | Unregistered
  | RegistrationInProgress
  | Registered (addr : H160)
deriving DecidableEq

/-- The `UNREGISTERED_DATA` constant: `[0u8; 20]`. -/
def UNREGISTERED_DATA : List Nat := List.replicate 20 0

/-- The `REGISTRATION_IN_PROGRESS_DATA` constant: `[1u8; 20]`. -/
def REGISTRATION_IN_PROGRESS_DATA : List Nat := List.replicate 20 1

/-- `<ContractStatus as Storable>::to_bytes`. -/
def ContractStatus.to_bytes : ContractStatus → List Nat
  | ContractStatus.Unregistered => UNREGISTERED_DATA
  | ContractStatus.RegistrationInProgress => REGISTRATION_IN_PROGRESS_DATA
  | ContractStatus.Registered hash => hash

/-- `<ContractStatus as Storable>::from_bytes`: the two sentinel patterns are
tried first, any other byte string decodes as a registered address. -/
def ContractStatus.from_bytes (bytes : List Nat) : ContractStatus :=
  if bytes = UNREGISTERED_DATA then ContractStatus.Unregistered
  else if bytes = REGISTRATION_IN_PROGRESS_DATA then ContractStatus.RegistrationInProgress
  else ContractStatus.Registered (H160.from_slice bytes)

/-- Application-level error of the remote host (`did::error::EvmError`); only
the `TransactionPool(InvalidNonce { expected, .. })` shape is inspected by the
gateway, every other payload is collapsed into `other`. -/
inductive EvmError where
  | invalidNonce (expected : Nat) (actual : Nat)
  | other (msg : String)
deriving DecidableEq

/-- The canister's local `Error` type, with the variants used by the embedded
operations (`Internal`, `ContractAlreadyRegistered`, `ContractNotRegistered`,
`NotAuthorized`, `PairNotExist`). -/
inductive Error where
  | internal (msg : String)
  | contractAlreadyRegistered
  | contractNotRegistered
  | notAuthorized
  | pairNotExist
deriving DecidableEq

/-- The receipt record consumed by `ContractService::get_created_contract_address`:
only the `status : Option<U64>` and `contract_address : Option<H160>` fields are
read (the full struct lives in the external `did` crate). -/
structure TransactionReceipt where
  status : Option Nat
  contract_address : Option H160
deriving DecidableEq

/-- The caller-supplied transaction; `register_account` only reads its
`from` field. -/
structure Transaction where
  txFrom : H160
deriving DecidableEq

/-- The persisted cells of the canister, gathered into one record:
`NONCE_CELL` (initialized to one), `ACCOUNT_DATA_CELL`,
`CONTRACT_REGISTRATION_STATE` and `CONTRACT_REGISTRATION_TX_HASH`. -/
structure EvmState where
  nonce : Nat
  account : AccountState
  contractStatus : ContractStatus
  contractTxHash : H256
deriving DecidableEq

/-- `EvmCanisterImpl::get_nonce`: returns the current counter and persists the
incremented value. -/
def get_nonce (nonce : Nat) : Nat × Nat := (nonce, nonce + 1)

/-- The nonce counter after `k` successive `get_nonce` calls starting from the
initial value one (no reconciliation in between). -/
def nonce_seq : Nat → Nat
  | 0 => 1
  | k + 1 => (get_nonce (nonce_seq k)).2

/-- `EvmCanisterImpl::process_call_result`: a transport failure (`none`) maps
to an internal error; an application-level `InvalidNonce` error overwrites the
nonce cell with the reported `expected` value before the error is surfaced. -/
def process_call_result (T : Type) [DecidableEq T] (nonce : Nat)
    (result : Option (Except EvmError T)) : Except Error T × Nat :=
  match result with
  | none => (Except.error (Error.internal "ic call failure"), nonce)
  | some r =>
    let nonce2 := match r with
      | Except.error (EvmError.invalidNonce expected _) => expected
      | _ => nonce
    match r with
    | Except.ok v => (Except.ok v, nonce2)
    | Except.error _ => (Except.error (Error.internal "transaction error"), nonce2)

/-- `Account::get_account`: the registered address, or an internal error when
the account cell is not in the `Registered` state. -/
def get_account : AccountState → Except Error H160
  | AccountState.Registered a => Except.ok a
  | _ => Except.error (Error.internal "Account no registered yet")

/-- `EvmCanisterImpl::create_contract`: `get_tx_params` first reads the
registered account (failing without touching the nonce when the account is not
registered), then `get_nonce` increments the counter, and the remote call's
result goes through `process_call_result`. -/
def create_contract (st : EvmState) (remote : Option (Except EvmError H256)) :
    Except Error H256 × EvmState :=
  match get_account st.account with
  | Except.error e => (Except.error e, st)
  | Except.ok _ =>
    let st1 : EvmState := { st with nonce := (get_nonce st.nonce).2 }
    let r := process_call_result H256 st1.nonce remote
    (r.1, { st1 with nonce := r.2 })

/-- Oracle outcomes for one `init_contract` run: the embedded-bytecode fetch
(`get_aggregator_single_smart_contract_code`), the constructor encoding
(`Constructor::encode_input`), and the remote contract-creation call. -/
structure InitContractEnv where
  bytecode : Except String (List Nat)
  encodeResult : Except String (List Nat)
  createResult : Option (Except EvmError H256)
deriving DecidableEq

/-- `ContractService::init_contract`: entry check-and-set to
`RegistrationInProgress`, bytecode fetch and constructor encoding (each `?`
early-returns), then the remote creation call; only the creation call's error
arm resets the status cell to its default. -/
def init_contract (st : EvmState) (env : InitContractEnv) :
    Except Error H256 × EvmState :=
  if st.contractStatus ≠ ContractStatus.Unregistered then
    (Except.error Error.contractAlreadyRegistered, st)
  else
    let st1 : EvmState := { st with contractStatus := ContractStatus.RegistrationInProgress }
    match env.bytecode with
    | Except.error e => (Except.error (Error.internal e), st1)
    | Except.ok _ =>
      match env.encodeResult with
      | Except.error e => (Except.error (Error.internal e), st1)
      | Except.ok _ =>
        match create_contract st1 env.createResult with
        | (Except.ok hash, st2) =>
          (Except.ok hash, { st2 with contractTxHash := hash })
        | (Except.error err, st2) =>
          (Except.error err, { st2 with contractStatus := ContractStatus.Unregistered })

/-- `ContractService::get_created_contract_address`: the created address is
exposed only when the receipt's status is `Some(U64::one())`. -/
def get_created_contract_address (result : TransactionReceipt) : Option H160 :=
  if result.status = some 1 then result.contract_address else none

/-- The address observed by `confirm_contract_address` from the receipt fetch:
`Ok(Some(receipt))` is passed to `get_created_contract_address`, every other
outcome (transport failure, application error, absent receipt) yields `none`. -/
def observed_created_address (nonce : Nat)
    (remote : Option (Except EvmError (Option TransactionReceipt))) : Option H160 :=
  match (process_call_result (Option TransactionReceipt) nonce remote).1 with
  | Except.ok (some receipt) => get_created_contract_address receipt
  | _ => none

/-- `ContractService::confirm_contract_address`: zero pending hash fails fast;
otherwise the receipt is fetched, a created address persists
`Registered(addr)` and clears the pending hash, and every other outcome resets
the status cell to `Unregistered` (the pending-hash cell is not written in
that branch). -/
def confirm_contract_address (st : EvmState)
    (remote : Option (Except EvmError (Option TransactionReceipt))) :
    Except Error H160 × EvmState :=
  if st.contractTxHash = H256.zero then
    (Except.error Error.contractNotRegistered, st)
  else
    let st1 : EvmState :=
      { st with nonce := (process_call_result (Option TransactionReceipt) st.nonce remote).2 }
    match observed_created_address st.nonce remote with
    | some addr =>
      (Except.ok addr,
        { st1 with contractStatus := ContractStatus.Registered addr,
                   contractTxHash := H256.zero })
    | none =>
      (Except.error (Error.internal "evm canister: tx failed."),
        { st1 with contractStatus := ContractStatus.Unregistered })

/-- `Account::reset`: force the account cell back to `Unregistered`. -/
def account_reset (st : EvmState) : EvmState :=
  { st with account := AccountState.Unregistered }

/-- Oracle outcomes for one `register_account` run: the already-registered
check, the token mint, `register_ic_agent` and `verify_registration`.  The
first two operations' gateway plumbing is not under `src/`; modelled from the
spec: every gateway operation goes through the two-layer error translation of
`process_call_result`. -/
structure RegisterEnv where
  isRegisteredResult : Option (Except EvmError Bool)
  mintResult : Option (Except EvmError Unit)
  registerIcAgentResult : Option (Except EvmError Unit)
  verifyResult : Option (Except EvmError Unit)
deriving DecidableEq

/-- `Account::register_account`: entry check-and-set to
`RegistrationInProgress`, then four remote steps; every failing step calls
`reset` and surfaces the error, full success persists `Registered(from)`. -/
def register_account (st : EvmState) (tx : Transaction) (env : RegisterEnv) :
    Except Error Unit × EvmState :=
  if st.account ≠ AccountState.Unregistered then
    (Except.error (Error.internal "Account already registered"), st)
  else
    let st1 : EvmState := { st with account := AccountState.RegistrationInProgress }
    let r1 := process_call_result Bool st1.nonce env.isRegisteredResult
    let st2 : EvmState := { st1 with nonce := r1.2 }
    match r1.1 with
    | Except.error err => (Except.error err, account_reset st2)
    | Except.ok isReg =>
      if isReg then
        (Except.error (Error.internal "address is already registered"), account_reset st2)
      else
        let r2 := process_call_result Unit st2.nonce env.mintResult
        let st3 : EvmState := { st2 with nonce := r2.2 }
        match r2.1 with
        | Except.error err => (Except.error err, account_reset st3)
        | Except.ok _ =>
          let r3 := process_call_result Unit st3.nonce env.registerIcAgentResult
          let st4 : EvmState := { st3 with nonce := r3.2 }
          match r3.1 with
          | Except.error err => (Except.error err, account_reset st4)
          | Except.ok _ =>
            let r4 := process_call_result Unit st4.nonce env.verifyResult
            let st5 : EvmState := { st4 with nonce := r4.2 }
            match r4.1 with
            | Except.error err => (Except.error err, account_reset st5)
            | Except.ok _ =>
              (Except.ok (), { st5 with account := AccountState.Registered tx.txFrom })

/-- Caller identity: the distinguished anonymous principal or a named one. -/
inductive Principal where
  | anonymous
  | named (id : Nat)
deriving DecidableEq

/-- `OracleCanister::check_owner`: the caller passes when it equals the stored
owner or the stored owner is the anonymous principal. -/
def check_owner (owner principal : Principal) : Except Error Unit :=
  if owner = principal ∨ owner = Principal.anonymous then Except.ok ()
  else Except.error Error.notAuthorized

/-- The `ApiType` enum of `canister.rs`. -/
inductive ApiType where
  | Coinbase
  | Coingecko
deriving DecidableEq

/-- The pair-collection loop of `update_price`: each requested pair must exist
in the store, the first missing one aborts with `PairNotExist`. -/
def check_pairs (existing : List String) : List String → Except Error (List String)
  | [] => Except.ok []
  | p :: rest =>
    if existing.contains p then
      (check_pairs existing rest).map (fun ks => p :: ks)
    else Except.error Error.pairNotExist

/-- `OracleCanister::update_price`: owner check, pair-existence loop, then the
fetch dispatched on the API type; the `Coinbase` arm indexes `pair_keys[0]`,
which on an empty vector is an out-of-bounds panic, modelled as `none` (every
normal return is `some`). -/
def update_price (owner caller : Principal) (existing : List String)
    (pairs : List String) (api : ApiType)
    (coinbaseRes : String → Except Error Unit)
    (coingeckoRes : List String → Except Error Unit) :
    Option (Except Error Unit) :=
  match check_owner owner caller with
  | Except.error e => some (Except.error e)
  | Except.ok _ =>
    match check_pairs existing pairs with
    | Except.error e => some (Except.error e)
    | Except.ok pair_keys =>
      match api with
      | ApiType.Coinbase =>
        match pair_keys with
        | [] => none
        | k :: _ => some (coinbaseRes k)
      | ApiType.Coingecko => some (coingeckoRes pair_keys)

lemma nonce_seq_eq (k : Nat) : nonce_seq k = k + 1 := by
  induction k with
  | zero => rfl
  | succ k ih => simp [nonce_seq, get_nonce, ih]

/-- C4: every `get_nonce` call returns the pre-increment counter value and
leaves the counter incremented by exactly one; with the counter initialized to
one the returned nonces are `1, 2, 3, ...` (strictly increasing) absent any
reconciliation; and after a reconciliation triggered by an invalid-nonce error
carrying the host's expected value, the counter equals exactly that expected
value regardless of its prior value, so the next `get_nonce` call returns it. -/
theorem get_nonce_spec :
    (∀ n : Nat, (get_nonce n).1 = n ∧ (get_nonce n).2 = n + 1) ∧
    (∀ k : Nat, (get_nonce (nonce_seq k)).1 = k + 1) ∧
    (∀ n expected actual : Nat,
      (process_call_result Unit n
          (some (Except.error (EvmError.invalidNonce expected actual)))).2 = expected ∧
      (get_nonce (process_call_result Unit n
          (some (Except.error (EvmError.invalidNonce expected actual)))).2).1 = expected) := by
  refine ⟨fun n => ⟨rfl, rfl⟩, ?_, fun n e a => ⟨rfl, rfl⟩⟩
  intro k
  rw [nonce_seq_eq]
  rfl

/-- C7 counterexample: with the counter at `4`, an invalid-nonce error
reporting expected `5` writes `5`, which is not `≤ 4` — the correction moves
the counter forward. -/
theorem reconcile_forward_cex :
    ¬ ((process_call_result Unit 4
        (some (Except.error (EvmError.invalidNonce 5 2)))).2 ≤ 4) := by
  decide

/-- C7 amended: for every invalid-nonce error reported by the remote host with
an expected value, the correction overwrites the counter with exactly that
expected value, whether it lies below, at, or above the prior counter value
(the write is not restricted to moving the counter backward). -/
theorem reconcile_sets_expected :
    ∀ n expected actual : Nat,
      (process_call_result Unit n
          (some (Except.error (EvmError.invalidNonce expected actual)))).2 = expected :=
  fun _ _ _ => rfl

/-- C8 counterexample: the registered status carrying the 20-byte address
`[1; 20]` serializes to the `RegistrationInProgress` sentinel, so decoding its
persisted bytes yields `RegistrationInProgress`, not the original value. -/
theorem contract_status_roundtrip_cex :
    ContractStatus.from_bytes (ContractStatus.to_bytes
        (ContractStatus.Registered (List.replicate 20 1)))
      ≠ ContractStatus.Registered (List.replicate 20 1) := by
  decide

/-- C8 amended: deserializing the persisted byte encoding of a
`ContractStatus` yields the original value for `Unregistered`,
`RegistrationInProgress`, and every `Registered(a)` whose address bytes are
neither the all-zero sentinel `[0; 20]` nor the all-one sentinel `[1; 20]`
(addresses equal to a sentinel decode to the corresponding unit variant). -/
theorem contract_status_roundtrip :
    ContractStatus.from_bytes (ContractStatus.to_bytes ContractStatus.Unregistered)
        = ContractStatus.Unregistered ∧
    ContractStatus.from_bytes (ContractStatus.to_bytes ContractStatus.RegistrationInProgress)
        = ContractStatus.RegistrationInProgress ∧
    ∀ a : H160, a ≠ UNREGISTERED_DATA → a ≠ REGISTRATION_IN_PROGRESS_DATA →
      ContractStatus.from_bytes (ContractStatus.to_bytes (ContractStatus.Registered a))
        = ContractStatus.Registered a := by
  refine ⟨by decide, by decide, ?_⟩
  intro a h0 h1
  simp [ContractStatus.to_bytes, ContractStatus.from_bytes, H160.from_slice, h0, h1]

/-- C8 witness: a concrete non-sentinel registered address round-trips. -/
theorem contract_status_roundtrip_witness :
    ContractStatus.from_bytes (ContractStatus.to_bytes
        (ContractStatus.Registered (List.replicate 20 5)))
      = ContractStatus.Registered (List.replicate 20 5) :=
  contract_status_roundtrip.2.2 (List.replicate 20 5) (by decide) (by decide)

/-- C9: `check_owner` accepts a caller exactly when the caller equals the
stored owner or the stored owner is the anonymous principal; in particular,
with the owner set to the anonymous principal every caller passes. -/
theorem check_owner_spec :
    (∀ owner caller : Principal,
      check_owner owner caller = Except.ok ()
        ↔ (caller = owner ∨ owner = Principal.anonymous)) ∧
    (∀ caller : Principal, check_owner Principal.anonymous caller = Except.ok ()) := by
  constructor
  · intro owner caller
    by_cases h : owner = caller ∨ owner = Principal.anonymous
    · rw [check_owner, if_pos h]
      exact iff_of_true rfl (h.imp Eq.symm id)
    · rw [check_owner, if_neg h]
      exact iff_of_false (fun hc => Except.noConfusion hc)
        (fun hc => h (hc.imp Eq.symm id))
  · intro caller
    rw [check_owner, if_pos (Or.inr rfl)]

/-- C10: calling `update_price` with an empty pair list and the `Coinbase`
API, with the owner check passing (here: caller equals owner), reaches the
`pair_keys[0]` index on an empty vector — an out-of-bounds panic (`none`)
rather than a typed error result. -/
theorem update_price_empty_coinbase_panics :
    ∀ (owner : Principal) (existing : List String)
      (coinbaseRes : String → Except Error Unit)
      (coingeckoRes : List String → Except Error Unit),
      update_price owner owner existing [] ApiType.Coinbase coinbaseRes coingeckoRes
        = none := by
  intro owner existing cb cg
  simp [update_price, check_owner, check_pairs]

/-- C5: calling `register_account` while the registration status is
`RegistrationInProgress` (or already `Registered`) fails with the
already-registered error and returns with every persisted cell — nonce
counter, registration status, contract status, pending hash — exactly as it
was: the whole state is unchanged. -/
theorem register_account_reentry_frame (st : EvmState) (tx : Transaction)
    (env : RegisterEnv)
    (h : st.account = AccountState.RegistrationInProgress ∨
         ∃ a, st.account = AccountState.Registered a) :
    register_account st tx env
      = (Except.error (Error.internal "Account already registered"), st) := by
  have hne : st.account ≠ AccountState.Unregistered := by
    rcases h with h | ⟨a, h⟩ <;> simp [h]
  unfold register_account
  rw [if_pos hne]

/-- C5 witness: a concrete in-progress state is rejected and returned
untouched. -/
theorem register_account_reentry_frame_witness :
    register_account
        ⟨1, AccountState.RegistrationInProgress, ContractStatus.Unregistered, H256.zero⟩
        ⟨List.replicate 20 7⟩ ⟨none, none, none, none⟩
      = (Except.error (Error.internal "Account already registered"),
         ⟨1, AccountState.RegistrationInProgress, ContractStatus.Unregistered, H256.zero⟩) :=
  register_account_reentry_frame _ _ _ (Or.inl rfl)

/-- C6: when `confirm_contract_address` runs with a nonzero pending hash and
the receipt fetch yields a receipt with success status `1` carrying a
created-contract address, it persists `Registered(addr)`, clears the pending
hash to zero, and returns that address. -/
theorem confirm_contract_success (st : EvmState) (receipt : TransactionReceipt)
    (addr : H160) (h0 : st.contractTxHash ≠ H256.zero)
    (h1 : receipt.status = some 1) (h2 : receipt.contract_address = some addr) :
    confirm_contract_address st (some (Except.ok (some receipt)))
      = (Except.ok addr,
         { st with contractStatus := ContractStatus.Registered addr,
                   contractTxHash := H256.zero }) := by
  unfold confirm_contract_address
  rw [if_neg h0]
  simp [observed_created_address, process_call_result, get_created_contract_address, h1, h2]

/-- C6 witness: a concrete pending deployment is confirmed at a concrete
receipt. -/
theorem confirm_contract_success_witness :
    confirm_contract_address
        ⟨1, AccountState.Unregistered, ContractStatus.RegistrationInProgress,
          2 :: List.replicate 31 0⟩
        (some (Except.ok (some ⟨some 1, some (List.replicate 20 9)⟩)))
      = (Except.ok (List.replicate 20 9),
         ⟨1, AccountState.Unregistered,
           ContractStatus.Registered (List.replicate 20 9), H256.zero⟩) :=
  confirm_contract_success _ _ _ (by decide) rfl rfl

/-- C2 counterexample: with a nonzero pending hash and a receipt fetch
returning no receipt, `confirm_contract_address` fails and resets the status,
but the pending-tx cell still holds the old nonzero hash afterwards. -/
theorem confirm_stale_pending_tx_cex :
    ((2 : Nat) :: List.replicate 31 0 ≠ H256.zero) ∧
    (confirm_contract_address
        ⟨1, AccountState.Unregistered, ContractStatus.RegistrationInProgress,
          2 :: List.replicate 31 0⟩ (some (Except.ok none))).1
      = Except.error (Error.internal "evm canister: tx failed.") ∧
    (confirm_contract_address
        ⟨1, AccountState.Unregistered, ContractStatus.RegistrationInProgress,
          2 :: List.replicate 31 0⟩ (some (Except.ok none))).2.contractTxHash
      = 2 :: List.replicate 31 0 :=
  ⟨by decide, rfl, rfl⟩

/-- C2 amended: when `confirm_contract_address` runs with a nonzero pending
hash and observes no receipt, a receipt without success status, or a receipt
without a created-contract address, it fails and resets the deployment status
to `Unregistered`, but it leaves the pending-tx cell unchanged — the cell
still holds the old nonzero hash when the operation returns. -/
theorem confirm_failure_resets_status (st : EvmState)
    (remote : Option (Except EvmError (Option TransactionReceipt)))
    (h0 : st.contractTxHash ≠ H256.zero)
    (h1 : observed_created_address st.nonce remote = none) :
    (confirm_contract_address st remote).1
      = Except.error (Error.internal "evm canister: tx failed.") ∧
    (confirm_contract_address st remote).2.contractStatus = ContractStatus.Unregistered ∧
    (confirm_contract_address st remote).2.contractTxHash = st.contractTxHash := by
  unfold confirm_contract_address
  rw [if_neg h0]
  simp [h1]

/-- C2 witness: a transport failure on the receipt fetch resets a concrete
pending deployment's status while the pending hash stays put. -/
theorem confirm_failure_resets_status_witness :
    (confirm_contract_address
        ⟨1, AccountState.Unregistered, ContractStatus.RegistrationInProgress,
          2 :: List.replicate 31 0⟩ none).1
      = Except.error (Error.internal "evm canister: tx failed.") ∧
    (confirm_contract_address
        ⟨1, AccountState.Unregistered, ContractStatus.RegistrationInProgress,
          2 :: List.replicate 31 0⟩ none).2.contractStatus = ContractStatus.Unregistered ∧
    (confirm_contract_address
        ⟨1, AccountState.Unregistered, ContractStatus.RegistrationInProgress,
          2 :: List.replicate 31 0⟩ none).2.contractTxHash = 2 :: List.replicate 31 0 :=
  confirm_failure_resets_status _ none (by decide) rfl

/-- C1 counterexample: starting from `Unregistered`, a failing bytecode fetch
makes `init_contract` return an error with the deployment status left at
`RegistrationInProgress`, not rolled back to `Unregistered`. -/
theorem init_contract_stuck_inprogress_cex :
    ((init_contract
        ⟨1, AccountState.Unregistered, ContractStatus.Unregistered, H256.zero⟩
        ⟨Except.error "bad hex", Except.ok [], none⟩).1
      = Except.error (Error.internal "bad hex")) ∧
    ((init_contract
        ⟨1, AccountState.Unregistered, ContractStatus.Unregistered, H256.zero⟩
        ⟨Except.error "bad hex", Except.ok [], none⟩).2.contractStatus
      = ContractStatus.RegistrationInProgress) :=
  ⟨rfl, rfl⟩

/-- C1 amended: for an execution of `init_contract` that starts from status
`Unregistered` and returns a failure, the status is rolled back to
`Unregistered` exactly when the bytecode fetch and the constructor encoding
both succeeded (so the failure came from the remote contract-creation call);
a failure of the bytecode fetch or of the constructor encoding returns early
with the status left at `RegistrationInProgress`. -/
theorem init_contract_failure_paths (st : EvmState) (env : InitContractEnv)
    (e : Error) (h0 : st.contractStatus = ContractStatus.Unregistered)
    (herr : (init_contract st env).1 = Except.error e) :
    (∀ code data : List Nat, env.bytecode = Except.ok code →
      env.encodeResult = Except.ok data →
      (init_contract st env).2.contractStatus = ContractStatus.Unregistered) ∧
    (((∃ s, env.bytecode = Except.error s) ∨ (∃ s, env.encodeResult = Except.error s)) →
      (init_contract st env).2.contractStatus = ContractStatus.RegistrationInProgress) := by
  have hcond : ¬ (st.contractStatus ≠ ContractStatus.Unregistered) := fun hc => hc h0
  rcases env with ⟨bc, enc, cr⟩
  unfold init_contract at herr ⊢
  rw [if_neg hcond] at herr ⊢
  constructor
  · rintro code data rfl rfl
    rcases hacct : get_account st.account with ea | addr
    · simp [create_contract, hacct]
    · rcases cr with _ | (e1 | v)
      · simp [create_contract, hacct, process_call_result]
      · simp [create_contract, hacct, process_call_result]
      · simp [create_contract, hacct, process_call_result] at herr
  · rintro (⟨s, rfl⟩ | ⟨s, hs⟩)
    · simp
    · rcases bc with s2 | code
      · simp
      · rw [hs]

/-- C1 witness: with bytecode and encoding succeeding and the remote creation
call failing at the transport layer, the status is rolled back. -/
theorem init_contract_failure_paths_witness :
    (init_contract
        ⟨1, AccountState.Registered (List.replicate 20 7),
          ContractStatus.Unregistered, H256.zero⟩
        ⟨Except.ok [0], Except.ok [0], none⟩).2.contractStatus
      = ContractStatus.Unregistered :=
  (init_contract_failure_paths
      ⟨1, AccountState.Registered (List.replicate 20 7),
        ContractStatus.Unregistered, H256.zero⟩
      ⟨Except.ok [0], Except.ok [0], none⟩
      (Error.internal "ic call failure") rfl rfl).1 [0] [0] rfl rfl

lemma register_account_entry_ok (st : EvmState) (tx : Transaction)
    (env : RegisterEnv) (h : st.account = AccountState.Unregistered) :
    (register_account st tx env).1
      ≠ Except.error (Error.internal "Account already registered") := by
  have hcond : ¬ (st.account ≠ AccountState.Unregistered) := fun hc => hc h
  unfold register_account
  rw [if_neg hcond]
  rcases env with ⟨r1, r2, r3, r4⟩
  rcases r1 with _ | (e1 | b)
  · simp [process_call_result]
  · simp [process_call_result]
  · cases b
    · rcases r2 with _ | (e2 | v2)
      · simp [process_call_result]
      · simp [process_call_result]
      · rcases r3 with _ | (e3 | v3)
        · simp [process_call_result]
        · simp [process_call_result]
        · rcases r4 with _ | (e4 | v4)
          · simp [process_call_result]
          · simp [process_call_result]
          · simp [process_call_result]
    · simp [process_call_result]

/-- C3: when `register_account` starts from `Unregistered` and any of the four
remote steps — the already-registered check, the token mint, register-ic-agent
or verify-registration — fails, the registration status is exactly
`Unregistered` when the operation returns, and a subsequent `register_account`
call passes the entry check-and-set (it is never rejected with the
already-registered entry error). -/
theorem register_account_rollback (st : EvmState) (tx : Transaction)
    (env : RegisterEnv) (e : Error)
    (h : st.account = AccountState.Unregistered)
    (herr : (register_account st tx env).1 = Except.error e) :
    (register_account st tx env).2.account = AccountState.Unregistered ∧
    ∀ env2 : RegisterEnv,
      (register_account ((register_account st tx env).2) tx env2).1
        ≠ Except.error (Error.internal "Account already registered") := by
  have hcond : ¬ (st.account ≠ AccountState.Unregistered) := fun hc => hc h
  have hmain : (register_account st tx env).2.account = AccountState.Unregistered := by
    unfold register_account at herr ⊢
    rw [if_neg hcond] at herr ⊢
    rcases env with ⟨r1, r2, r3, r4⟩
    rcases r1 with _ | (e1 | b)
    · simp [process_call_result, account_reset]
    · simp [process_call_result, account_reset]
    · cases b
      · rcases r2 with _ | (e2 | v2)
        · simp [process_call_result, account_reset]
        · simp [process_call_result, account_reset]
        · rcases r3 with _ | (e3 | v3)
          · simp [process_call_result, account_reset]
          · simp [process_call_result, account_reset]
          · rcases r4 with _ | (e4 | v4)
            · simp [process_call_result, account_reset]
            · simp [process_call_result, account_reset]
            · simp [process_call_result] at herr
      · simp [process_call_result, account_reset]
  exact ⟨hmain, fun env2 => register_account_entry_ok _ tx env2 hmain⟩

/-- C3 witness: a transport failure on the first remote step rolls a concrete
registration back to `Unregistered`, and the retry is not rejected at entry. -/
theorem register_account_rollback_witness :
    (register_account
        ⟨1, AccountState.Unregistered, ContractStatus.Unregistered, H256.zero⟩
        ⟨List.replicate 20 7⟩ ⟨none, none, none, none⟩).2.account
      = AccountState.Unregistered ∧
    ∀ env2 : RegisterEnv,
      (register_account
          ((register_account
              ⟨1, AccountState.Unregistered, ContractStatus.Unregistered, H256.zero⟩
              ⟨List.replicate 20 7⟩ ⟨none, none, none, none⟩).2)
          ⟨List.replicate 20 7⟩ env2).1
        ≠ Except.error (Error.internal "Account already registered") :=
  register_account_rollback
    ⟨1, AccountState.Unregistered, ContractStatus.Unregistered, H256.zero⟩
    ⟨List.replicate 20 7⟩ ⟨none, none, none, none⟩
    (Error.internal "ic call failure") rfl rfl

end RegisterEvmAgent
